import Mathlib

/-!
Verification of the wishlist persistence and reconciliation logic of a
Shopify wishlist app (Flask + SQLAlchemy).  The embedding below translates
the relevant Python source files:

  * `src/models/wishlist.py`   — the `Wishlist` and `WishlistSettings` tables
  * `src/routes/wishlist.py`   — direct API routes (add / remove / clear / count / list)
  * `src/routes/proxy.py`      — app-proxy routes (`_add_to_wishlist`,
                                 `_remove_from_wishlist`, `_get_wishlist`,
                                 `_resolve_product_id`)
  * `src/routes/auth.py`       — `uninstall`, `verify_installation`
  * `src/utils/shopify_api.py` — external calls, modelled as explicit
                                 `Except`-valued lookup functions

JSON responses are modelled by the inductive `J` below; HTTP handlers become
functions from a store state and the already-extracted request parameters to
`(J × Nat) × state` (payload, status code, new state).  Python truthiness of
optional string parameters is modelled by `truthy`/`normOpt`.  Timestamps
(`created_at`, `updated_at`) and the exception text interpolated into error
messages are not modelled; no claim refers to them.
-/

set_option autoImplicit false

/-- A JSON value, as produced by Flask's `jsonify`. -/
inductive J where
  | s (v : String)
  | b (v : Bool)
  | n (v : Int)
  | null
  | arr (xs : List J)
  | obj (kvs : List (String × J))

/-- First value bound to key `k` in an association list (Python `dict.get`). -/
def getKV : List (String × J) → String → Option J
  | [], _ => none
  | (k', v) :: rest, k => if k' = k then some v else getKV rest k

/-- `d.get(k)` on a JSON object; `none` on non-objects (a `.get` on a
non-dict raises in Python, and every such call site catches the exception). -/
def J.get : J → String → Option J
  | .obj kvs, k => getKV kvs k
  | _, _ => none

/-- Python truthiness of a JSON value. -/
def J.truthy : J → Bool
  | .s v => !v.isEmpty
  | .b v => v
  | .n v => decide (v ≠ 0)
  | .null => false
  | .arr xs => !xs.isEmpty
  | .obj kvs => !kvs.isEmpty

/-- Python `str()` of a JSON value.  The `repr` of containers is not
modelled (no claim depends on it). -/
def jsonToStr : J → String
  | .s v => v
  | .n v => toString v
  | .b true => "True"
  | .b false => "False"
  | .null => "None"
  | .arr _ => ""
  | .obj _ => ""

/-- `dict.setdefault(k, v)`: keep an existing binding, else append one. -/
def setdefaultKV (kvs : List (String × J)) (k : String) (v : J) : List (String × J) :=
  match getKV kvs k with
  | some _ => kvs
  | none => kvs ++ [(k, v)]

/-- `_json_ok` of `src/routes/wishlist.py`: defaults `success` to `true`. -/
def jsonOk (payload : List (String × J)) (status : Nat) : J × Nat :=
  (J.obj (setdefaultKV payload "success" (J.b true)), status)

/-- `_json_err` of `src/routes/wishlist.py` (same payload shape as
`_json_error` of `src/routes/proxy.py` without `extra`). -/
def jsonErr (msg : String) (status : Nat) : J × Nat :=
  (J.obj [("success", J.b false), ("error", J.s msg)], status)

/-- Python truthiness of an optional request string (`None` and `""` are falsy). -/
def truthy : Option String → Bool
  | none => false
  | some s => !s.isEmpty

/-- `str(x) if x else None`: normalise a falsy optional string to `none`. -/
def normOpt : Option String → Option String
  | none => none
  | some s => if s.isEmpty then none else some s

/-- One `Wishlist` table row (`src/models/wishlist.py`).  `customer_id` and
`shop_domain` are NOT NULL string columns; `product_id` is declared
`nullable=False` and `variant_id` `nullable=True`, which the storage layer
enforces at insert time (see `dbInsert`); the row type itself ranges over
all column assignments.  `created_at` is not modelled. -/
structure Row where
  id : Nat
  customer_id : String
  shop_domain : String
  product_id : Option String
  variant_id : Option String
  deriving Repr, DecidableEq

/-- The `Wishlist` table: rows in insertion order plus the autoincrement
primary-key counter. -/
structure Store where
  rows : List Row
  nextId : Nat
  deriving Repr, DecidableEq

/-- One `WishlistSettings` row (`src/models/wishlist.py`).  Timestamps not
modelled. -/
structure ShopSettings where
  shop_domain : String
  access_token : String
  webhook_secret : Option String
  settings : Option String
  deriving Repr, DecidableEq

/-- Whole persistent state: the settings table and the wishlist table. -/
structure AppState where
  settings : List ShopSettings
  wishlist : Store
  deriving Repr, DecidableEq

/-- SQL equality used by a UNIQUE constraint: two column values conflict
only when both are non-NULL and equal (NULLs are pairwise distinct). -/
def sqlEq : Option String → Option String → Bool
  | some a, some b => decide (a = b)
  | _, _ => false

/-- Violation of the declared composite constraint
`UniqueConstraint('customer_id', 'shop_domain', 'product_id', 'variant_id')`
between two rows, under SQL NULL semantics. -/
def uniqueConflict (r1 r2 : Row) : Bool :=
  decide (r1.customer_id = r2.customer_id) && decide (r1.shop_domain = r2.shop_domain)
    && sqlEq r1.product_id r2.product_id && sqlEq r1.variant_id r2.variant_id

/-- Result of flushing an INSERT through SQLAlchemy. -/
inductive InsertResult where
  | ok (st : Store) (item : Row)
  | integrityError

/-- INSERT into the `Wishlist` table: rejected with `IntegrityError` when the
NOT NULL constraint on `product_id` or the declared composite UNIQUE
constraint (SQL NULL semantics) is violated, otherwise the row is appended. -/
def dbInsert (st : Store) (c s : String) (p v : Option String) : InsertResult :=
  let r : Row := ⟨st.nextId, c, s, p, v⟩
  if p.isNone then .integrityError
  else if st.rows.any (fun r0 => uniqueConflict r0 r) then .integrityError
  else .ok ⟨st.rows ++ [r], st.nextId + 1⟩ r

/-- The strict duplicate/removal filter used by `add_to_wishlist`,
`_add_to_wishlist` and `_remove_from_wishlist`: every one of the four
columns is matched exactly, an absent identifier matching only NULL. -/
def addMatch (c s : String) (p v : Option String) (r : Row) : Bool :=
  decide (r.customer_id = c ∧ r.shop_domain = s ∧ r.product_id = p ∧ r.variant_id = v)

/-- The filter built by `remove_from_wishlist_by_body`
(`src/routes/wishlist.py`): only the identifiers that were supplied are
filtered on, so an absent product/variant matches any stored value. -/
def looseMatch (c s : String) (p v : Option String) (r : Row) : Bool :=
  decide (r.customer_id = c ∧ r.shop_domain = s)
    && (match p with
        | some pp => decide (r.product_id = some pp)
        | none => true)
    && (match v with
        | some vv => decide (r.variant_id = some vv)
        | none => true)

/-- `query.first()`: the first table row satisfying the filter. -/
def findRow {α : Type} (p : α → Bool) : List α → Option α
  | [] => none
  | r :: rs => if p r then some r else findRow p rs

/-- `db.session.delete(query.first())`: remove the first matching row. -/
def deleteRow {α : Type} (p : α → Bool) : List α → List α
  | [] => []
  | r :: rs => if p r then rs else r :: deleteRow p rs

/-- `WishlistSettings.query.filter_by(shop_domain=s).first()`. -/
def findSettings (s : String) (l : List ShopSettings) : Option ShopSettings :=
  findRow (fun x => decide (x.shop_domain = s)) l

/-- Delete the first settings row for shop `s` (uninstall route; the table
has a UNIQUE constraint on `shop_domain`, so at most one exists in states
the app can produce). -/
def deleteSettings (s : String) (l : List ShopSettings) : List ShopSettings :=
  deleteRow (fun x => decide (x.shop_domain = s)) l

/-- `Option String` rendered into a JSON field. -/
def optStr : Option String → J
  | some s => J.s s
  | none => J.null

/-- The fields of `Wishlist.to_dict()` (`created_at` not modelled). -/
def rowFields (r : Row) : List (String × J) :=
  [("id", J.n (Int.ofNat r.id)),
   ("customer_id", J.s r.customer_id),
   ("shop_domain", J.s r.shop_domain),
   ("product_id", optStr r.product_id),
   ("variant_id", optStr r.variant_id)]

/-- `Wishlist.to_dict()`. -/
def rowToDict (r : Row) : J :=
  J.obj (rowFields r)

/-- Outcome of one external Shopify Admin API call for a given identifier:
`.error` models a raised exception, `.ok none` a falsy result (request
failure swallowed by `_make_request`, missing key, empty payload), and
`.ok (some j)` a truthy JSON payload. -/
abbrev Lookup := String → Except String (Option J)

/-- `_resolve_product_id` (`src/routes/proxy.py`): best-effort resolution of a
product id from a variant id.  `settings` is the registry row found by
`_get_shop_settings shop`; `lookupVariant` models the
`ShopifyAPI.get_variant` call, whose raised exceptions (`.error`) are caught
by the enclosing `try`/`except` and turned into `none`. -/
def resolveProductId (shop : String) (variant : Option String)
    (settings : Option ShopSettings) (lookupVariant : Lookup) : Option String :=
  if shop.isEmpty || !truthy variant then none
  else
    match settings with
    | none => none
    | some st =>
      if st.access_token.isEmpty then none
      else
        match lookupVariant (variant.getD "") with
        | .error _ => none
        | .ok none => none
        | .ok (some v) =>
          let vobj := match J.get v "variant" with
                      | some x => x
                      | none => v
          match J.get vobj "product_id" with
          | none => none
          | some pid => if pid.truthy then some (jsonToStr pid) else none

/-- `add_to_wishlist` (`src/routes/wishlist.py`, `POST /wishlist`): validate,
run the strict null-aware duplicate check, then insert.  Any exception from
the insert (in particular `IntegrityError`) is caught by the generic
handler, rolled back, and reported as a 500. -/
def wishlistAdd (st : Store) (shop customer product variant : Option String) :
    (J × Nat) × Store :=
  if !(truthy customer && truthy shop) then
    (jsonErr "customer_id and shop_domain are required" 400, st)
  else if !(truthy product || truthy variant) then
    (jsonErr "product_id or variant_id is required" 400, st)
  else
    let c := customer.getD ""
    let s := shop.getD ""
    let p := normOpt product
    let v := normOpt variant
    match findRow (addMatch c s p v) st.rows with
    | some _ => (jsonErr "Item already in wishlist" 409, st)
    | none =>
      match dbInsert st c s p v with
      | .ok st' item =>
        (jsonOk [("message", J.s "Item added to wishlist"), ("item", rowToDict item)] 201, st')
      | .integrityError => (jsonErr "add_failed" 500, st)

/-- `_add_to_wishlist` (`src/routes/proxy.py`): same as `wishlistAdd` but the
shop was already validated by `proxy_wishlist`, a variant-only request first
tries `_resolve_product_id`, the success status is 200, and `IntegrityError`
is reported with its dedicated message. -/
def proxyAdd (st : Store) (shop : String) (customer product variant : Option String)
    (settings : Option ShopSettings) (lookupVariant : Lookup) : (J × Nat) × Store :=
  if !(truthy customer && (truthy product || truthy variant)) then
    (jsonErr "customer_id and product_id or variant_id are required" 400, st)
  else
    let c := customer.getD ""
    let p0 := normOpt product
    let v := normOpt variant
    let p := if p0.isNone && v.isSome then
               match resolveProductId shop variant settings lookupVariant with
               | some rp => if rp.isEmpty then p0 else some rp
               | none => p0
             else p0
    match findRow (addMatch c shop p v) st.rows with
    | some _ => (jsonErr "Item already in wishlist" 409, st)
    | none =>
      match dbInsert st c shop p v with
      | .ok st' item =>
        (jsonOk [("message", J.s "Item added to wishlist"), ("item", rowToDict item)] 200, st')
      | .integrityError =>
        (jsonErr "db_integrity_failed: product_id may be required in your schema" 500, st)

/-- `remove_from_wishlist_by_body` (`src/routes/wishlist.py`,
`DELETE /wishlist`): filters only by the identifiers that were supplied
(`looseMatch`), deletes the first match. -/
def wishlistRemoveByBody (st : Store) (shop customer product variant : Option String) :
    (J × Nat) × Store :=
  if !(truthy customer && truthy shop) then
    (jsonErr "customer_id and shop_domain are required" 400, st)
  else if !(truthy product || truthy variant) then
    (jsonErr "product_id or variant_id is required" 400, st)
  else
    let c := customer.getD ""
    let s := shop.getD ""
    let p := normOpt product
    let v := normOpt variant
    match findRow (looseMatch c s p v) st.rows with
    | none => (jsonErr "Item not found" 404, st)
    | some _ =>
      (jsonOk [("message", J.s "Item removed from wishlist")] 200,
       ⟨deleteRow (looseMatch c s p v) st.rows, st.nextId⟩)

/-- `_remove_from_wishlist` (`src/routes/proxy.py`): strict null-aware match
(`addMatch`, absent identifiers filter on NULL), deletes the first match. -/
def proxyRemove (st : Store) (shop : String) (customer product variant : Option String) :
    (J × Nat) × Store :=
  if !(truthy customer && (truthy product || truthy variant)) then
    (jsonErr "customer_id and product_id or variant_id are required" 400, st)
  else
    let c := customer.getD ""
    let p := normOpt product
    let v := normOpt variant
    match findRow (addMatch c shop p v) st.rows with
    | none => (jsonErr "Item not found" 404, st)
    | some _ =>
      (jsonOk [("message", J.s "Item removed from wishlist")] 200,
       ⟨deleteRow (addMatch c shop p v) st.rows, st.nextId⟩)

/-- Rows belonging to one (customer, shop) pair. -/
def ownerMatch (c s : String) (r : Row) : Bool :=
  decide (r.customer_id = c ∧ r.shop_domain = s)

/-- `clear_wishlist` (`src/routes/wishlist.py`, `DELETE /wishlist/clear`):
bulk delete of the customer's rows; `.delete()` reports how many rows went. -/
def clearWishlist (st : Store) (shop customer : Option String) : (J × Nat) × Store :=
  if !(truthy customer && truthy shop) then
    (jsonErr "customer_id and shop_domain are required" 400, st)
  else
    let c := customer.getD ""
    let s := shop.getD ""
    let deleted := st.rows.countP (ownerMatch c s)
    (jsonOk [("message", J.s ("Cleared " ++ toString deleted ++ " items from wishlist"))] 200,
     ⟨st.rows.filter (fun r => !ownerMatch c s r), st.nextId⟩)

/-- `get_wishlist_count` (`src/routes/wishlist.py`, `GET /wishlist/count`). -/
def wishlistCount (st : Store) (shop customer : Option String) : J × Nat :=
  if !(truthy customer && truthy shop) then
    jsonErr "customer_id and shop_domain are required" 400
  else
    let c := customer.getD ""
    let s := shop.getD ""
    jsonOk [("count", J.n (Int.ofNat (st.rows.countP (ownerMatch c s))))] 200

/-- Enrichment of one row as in `get_wishlist` (`src/routes/wishlist.py`):
when an API client exists and the row has a truthy `product_id`, one
`get_product` call is made; a raised exception is caught per row and
annotated as `product_error`; a truthy product payload is attached under
`product`; anything falsy leaves the row bare. -/
def enrichRowMarked (api : Option Lookup) (r : Row) : J :=
  match api with
  | none => J.obj (rowFields r)
  | some f =>
    match r.product_id with
    | none => J.obj (rowFields r)
    | some pid =>
      if pid.isEmpty then J.obj (rowFields r)
      else
        match f pid with
        | .error e => J.obj (rowFields r ++ [("product_error", J.s e)])
        | .ok none => J.obj (rowFields r)
        | .ok (some p) =>
          if p.truthy then J.obj (rowFields r ++ [("product", p)])
          else J.obj (rowFields r)

/-- Enrichment of one row as in `_get_wishlist` (`src/routes/proxy.py`):
identical, except a per-row failure is silently passed over (no marker). -/
def enrichRowPlain (api : Option Lookup) (r : Row) : J :=
  match api with
  | none => J.obj (rowFields r)
  | some f =>
    match r.product_id with
    | none => J.obj (rowFields r)
    | some pid =>
      if pid.isEmpty then J.obj (rowFields r)
      else
        match f pid with
        | .error _ => J.obj (rowFields r)
        | .ok none => J.obj (rowFields r)
        | .ok (some p) =>
          if p.truthy then J.obj (rowFields r ++ [("product", p)])
          else J.obj (rowFields r)

/-- The enrichment loop of `get_wishlist`: every row is appended to the
output exactly once, in iteration order. -/
def enrichList (api : Option Lookup) (items : List Row) : List J :=
  items.map (enrichRowMarked api)

/-- `get_wishlist` (`src/routes/wishlist.py`, `GET /wishlist`).  `api` is
`some f` exactly when a `WishlistSettings` row exists for the shop and an
API client was built from its token. -/
def getWishlist (st : Store) (shop customer : Option String) (api : Option Lookup) :
    J × Nat :=
  if !(truthy customer && truthy shop) then
    jsonErr "customer_id and shop_domain are required" 400
  else
    let c := customer.getD ""
    let s := shop.getD ""
    jsonOk [("wishlist", J.arr (enrichList api (st.rows.filter (ownerMatch c s))))] 200

/-- Shop-domain normalisation shared by the auth routes. -/
def normalizeShop (s : String) : String :=
  if s.endsWith ".myshopify.com" then s else s ++ ".myshopify.com"

/-- `uninstall` (`src/routes/auth.py`, `POST /auth/uninstall`): delete the
shop's settings row (if any) and bulk-delete all wishlist rows of the shop.
Note: auth responses are built with bare `jsonify`, not `_json_ok`. -/
def uninstall (st : AppState) (shop : Option String) : (J × Nat) × AppState :=
  if !truthy shop then
    ((J.obj [("error", J.s "shop parameter is required")], 400), st)
  else
    let s := normalizeShop (shop.getD "")
    ((J.obj [("success", J.b true), ("message", J.s "App uninstalled successfully")], 200),
     ⟨deleteSettings s st.settings,
      ⟨st.wishlist.rows.filter (fun r => !decide (r.shop_domain = s)), st.wishlist.nextId⟩⟩)

/-- `verify_installation` (`src/routes/auth.py`, `GET /auth/verify`). -/
def verifyInstallation (st : AppState) (shop : Option String) : J × Nat :=
  if !truthy shop then
    (J.obj [("error", J.s "shop parameter is required")], 400)
  else
    let s := normalizeShop (shop.getD "")
    (J.obj [("installed", J.b (findSettings s st.settings).isSome), ("shop", J.s s)], 200)

/-! ### Spec-level predicates -/

/-- Two rows agree on the whole (customer, shop, product, variant) tuple,
an absent product/variant comparing equal to absent. -/
def sameTuple (a b : Row) : Prop :=
  a.customer_id = b.customer_id ∧ a.shop_domain = b.shop_domain
    ∧ a.product_id = b.product_id ∧ a.variant_id = b.variant_id

instance (a b : Row) : Decidable (sameTuple a b) := by
  unfold sameTuple; infer_instance

/-- The spec's uniqueness invariant: no two rows share all four values,
null comparing equal to null. -/
def claimedUnique (rows : List Row) : Prop :=
  rows.Pairwise (fun a b => ¬ sameTuple a b)

instance (rows : List Row) : Decidable (claimedUnique rows) := by
  unfold claimedUnique; infer_instance

/-- What the declared storage-layer constraint accepts: no pair of rows
violates the composite UNIQUE constraint under SQL NULL semantics. -/
def sqlConstraintOK (rows : List Row) : Prop :=
  rows.Pairwise (fun a b => uniqueConflict a b = false)

instance (rows : List Row) : Decidable (sqlConstraintOK rows) := by
  unfold sqlConstraintOK; infer_instance

/-- The response discipline the spec ascribes to the service: a boolean
`success` field on every payload, and on error statuses an `error` message
together with one of the documented codes. -/
def goodResponse (resp : J × Nat) : Prop :=
  (∃ bv, resp.1.get "success" = some (J.b bv))
    ∧ (400 ≤ resp.2 →
        (∃ m, resp.1.get "error" = some (J.s m))
          ∧ (resp.2 = 400 ∨ resp.2 = 404 ∨ resp.2 = 409 ∨ resp.2 = 500))

/-! ### Helper lemmas -/

theorem findRow_eq_none {α : Type} {p : α → Bool} {l : List α} :
    findRow p l = none ↔ ∀ x ∈ l, p x = false := by
  induction l with
  | nil => simp [findRow]
  | cons r rs ih =>
    by_cases h : p r <;> simp [findRow, h, ih]

theorem findRow_cases {α : Type} (p : α → Bool) (l : List α) :
    (findRow p l = none ∧ deleteRow p l = l ∧ ∀ x ∈ l, p x = false)
      ∨ ∃ l1 m l2, l = l1 ++ m :: l2 ∧ findRow p l = some m ∧ deleteRow p l = l1 ++ l2
          ∧ p m = true ∧ ∀ x ∈ l1, p x = false := by
  induction l with
  | nil => exact Or.inl ⟨rfl, rfl, by simp⟩
  | cons r rs ih =>
    by_cases h : p r
    · exact Or.inr ⟨[], r, rs, by simp, by simp [findRow, h], by simp [deleteRow, h], h, by simp⟩
    · rcases ih with ⟨h1, h2, h3⟩ | ⟨l1, m, l2, he, hf, hd, hm, hl1⟩
      · refine Or.inl ⟨?_, ?_, ?_⟩
        · simp [findRow, h, h1]
        · simp [deleteRow, h, h2]
        · intro x hx
          rcases List.mem_cons.mp hx with rfl | hx
          · simpa using h
          · exact h3 x hx
      · refine Or.inr ⟨r :: l1, m, l2, by simp [he], ?_, ?_, hm, ?_⟩
        · simp [findRow, h, hf]
        · simp [deleteRow, h, hd]
        · intro x hx
          rcases List.mem_cons.mp hx with rfl | hx
          · simpa using h
          · exact hl1 x hx

theorem findRow_append_of_none {α : Type} {p : α → Bool} {l1 l2 : List α}
    (h : ∀ x ∈ l1, p x = false) : findRow p (l1 ++ l2) = findRow p l2 := by
  induction l1 with
  | nil => rfl
  | cons r rs ih =>
    have hr : p r = false := h r (by simp)
    simp only [List.cons_append, findRow, hr]
    exact ih (fun x hx => h x (by simp [hx]))

theorem deleteRow_append_of_none {α : Type} {p : α → Bool} {l1 l2 : List α}
    (h : ∀ x ∈ l1, p x = false) : deleteRow p (l1 ++ l2) = l1 ++ deleteRow p l2 := by
  induction l1 with
  | nil => rfl
  | cons r rs ih =>
    have hr : p r = false := h r (by simp)
    simp only [List.cons_append, deleteRow, hr]
    exact congrArg (r :: ·) (ih (fun x hx => h x (by simp [hx])))

theorem deleteRow_eq_of_none {α : Type} {p : α → Bool} {l : List α}
    (h : ∀ x ∈ l, p x = false) : deleteRow p l = l := by
  induction l with
  | nil => rfl
  | cons r rs ih =>
    have hr : p r = false := h r (by simp)
    simp only [deleteRow, hr, if_false]
    exact congrArg (r :: ·) (ih (fun x hx => h x (by simp [hx])))

theorem getKV_append (l1 l2 : List (String × J)) (k : String) :
    getKV (l1 ++ l2) k
      = match getKV l1 k with
        | some v => some v
        | none => getKV l2 k := by
  induction l1 with
  | nil => simp [getKV]
  | cons kv rest ih =>
    by_cases h : kv.1 = k
    · simp [getKV, h]
    · simp [getKV, h, ih]

theorem goodResponse_jsonErr (msg : String) (s : Nat)
    (h : s = 400 ∨ s = 404 ∨ s = 409 ∨ s = 500) : goodResponse (jsonErr msg s) := by
  refine ⟨⟨false, by simp [jsonErr, J.get, getKV]⟩, fun _ => ⟨⟨msg, ?_⟩, h⟩⟩
  simp [jsonErr, J.get, getKV]

theorem goodResponse_jsonOk (payload : List (String × J)) (s : Nat)
    (hlt : s < 400) (habsent : getKV payload "success" = none) :
    goodResponse (jsonOk payload s) := by
  refine ⟨⟨true, ?_⟩, fun hge => ?_⟩
  · simp [jsonOk, J.get, setdefaultKV, habsent, getKV_append, getKV]
  · simp only [jsonOk] at hge
    omega

theorem uniqueConflict_imp_addMatch (c s pstr : String) (v : Option String) (n : Nat)
    (r : Row) (h : uniqueConflict r ⟨n, c, s, some pstr, v⟩ = true) :
    addMatch c s (some pstr) v r = true := by
  unfold uniqueConflict at h
  simp only [Bool.and_eq_true, decide_eq_true_eq] at h
  obtain ⟨⟨⟨hc, hs⟩, hp⟩, hv⟩ := h
  unfold addMatch
  simp only [decide_eq_true_eq]
  refine ⟨hc, hs, ?_, ?_⟩
  · cases hrp : r.product_id with
    | none => rw [hrp] at hp; simp [sqlEq] at hp
    | some a =>
      rw [hrp] at hp
      simp only [sqlEq, decide_eq_true_eq] at hp
      exact congrArg some hp
  · cases v with
    | none =>
      cases hrv : r.variant_id with
      | none => rfl
      | some b => rw [hrv] at hv; simp [sqlEq] at hv
    | some vv =>
      cases hrv : r.variant_id with
      | none => rw [hrv] at hv; simp [sqlEq] at hv
      | some b =>
        rw [hrv] at hv
        simp only [sqlEq, decide_eq_true_eq] at hv
        exact congrArg some hv

theorem wishlistAdd_success (st : Store) (shop c pstr : String) (v : Option String)
    (hshop : ¬shop.isEmpty) (hc : ¬c.isEmpty) (hp : ¬pstr.isEmpty)
    (hnodup : ∀ r ∈ st.rows, addMatch c shop (some pstr) (normOpt v) r = false) :
    wishlistAdd st (some shop) (some c) (some pstr) v
      = (jsonOk [("message", J.s "Item added to wishlist"),
                 ("item", rowToDict ⟨st.nextId, c, shop, some pstr, normOpt v⟩)] 201,
         ⟨st.rows ++ [⟨st.nextId, c, shop, some pstr, normOpt v⟩], st.nextId + 1⟩) := by
  have h1 : truthy (some c) = true := by simp [truthy, hc]
  have h2 : truthy (some shop) = true := by simp [truthy, hshop]
  have h3 : truthy (some pstr) = true := by simp [truthy, hp]
  have h4 : normOpt (some pstr) = some pstr := by simp [normOpt, hp]
  have hfind : findRow (addMatch c shop (some pstr) (normOpt v)) st.rows = none :=
    findRow_eq_none.mpr hnodup
  have hconf : (st.rows.any
      (fun r0 => uniqueConflict r0 ⟨st.nextId, c, shop, some pstr, normOpt v⟩)) = false := by
    rw [List.any_eq_false]
    intro r hr hcf
    have hm := uniqueConflict_imp_addMatch c shop pstr (normOpt v) st.nextId r hcf
    rw [hnodup r hr] at hm
    exact Bool.false_ne_true hm
  unfold wishlistAdd
  simp only [h1, h2, h3, h4, Bool.and_self, Bool.true_or, Bool.not_true,
    Bool.false_eq_true, if_false, Option.getD_some]
  rw [hfind]
  unfold dbInsert
  simp only [h4, Option.isNone_some, Bool.false_eq_true, if_false]
  rw [hconf]
  simp

theorem wishlistAdd_conflict (st : Store) (shop c pstr : String) (v : Option String)
    (hshop : ¬shop.isEmpty) (hc : ¬c.isEmpty) (hp : ¬pstr.isEmpty) (m : Row)
    (hfind : findRow (addMatch c shop (some pstr) (normOpt v)) st.rows = some m) :
    wishlistAdd st (some shop) (some c) (some pstr) v
      = (jsonErr "Item already in wishlist" 409, st) := by
  have h1 : truthy (some c) = true := by simp [truthy, hc]
  have h2 : truthy (some shop) = true := by simp [truthy, hshop]
  have h3 : truthy (some pstr) = true := by simp [truthy, hp]
  have h4 : normOpt (some pstr) = some pstr := by simp [normOpt, hp]
  unfold wishlistAdd
  simp only [h1, h2, h3, h4, Bool.and_self, Bool.true_or, Bool.not_true,
    Bool.false_eq_true, if_false, Option.getD_some]
  rw [hfind]

/-- C1 (counterexample): the claim fails as stated.  The tuple
(shop="s1.example", customer="c1", product absent, variant="V1") is valid —
at least one identifier is present — yet the first `add` does not succeed:
`product_id` is declared NOT NULL, so the INSERT raises `IntegrityError`
and the route answers 500 with no row persisted. -/
theorem add_once_succeeds_counterexample :
    (wishlistAdd ⟨[], 1⟩ (some "s1.example") (some "c1") none (some "V1")).1.2 = 500
      ∧ ((wishlistAdd ⟨[], 1⟩ (some "s1.example") (some "c1") none (some "V1")).2).rows = [] :=
  ⟨rfl, rfl⟩

/-- C1 (amended): for every valid tuple whose product identifier is present,
a first `add` succeeds (201) and appends exactly the new row, and an
immediately repeated identical `add` returns 409, performs no write, and
leaves the row count unchanged. -/
theorem add_conflict_on_duplicate (st : Store) (shop c pstr : String) (v : Option String)
    (hshop : ¬shop.isEmpty) (hc : ¬c.isEmpty) (hp : ¬pstr.isEmpty)
    (hnodup : ∀ r ∈ st.rows, addMatch c shop (some pstr) (normOpt v) r = false) :
    (wishlistAdd st (some shop) (some c) (some pstr) v).1.2 = 201
      ∧ (wishlistAdd st (some shop) (some c) (some pstr) v).2.rows
          = st.rows ++ [⟨st.nextId, c, shop, some pstr, normOpt v⟩]
      ∧ (wishlistAdd (wishlistAdd st (some shop) (some c) (some pstr) v).2
          (some shop) (some c) (some pstr) v).1.2 = 409
      ∧ (wishlistAdd (wishlistAdd st (some shop) (some c) (some pstr) v).2
          (some shop) (some c) (some pstr) v).2
          = (wishlistAdd st (some shop) (some c) (some pstr) v).2 := by
  have h1 := wishlistAdd_success st shop c pstr v hshop hc hp hnodup
  have hmatch : addMatch c shop (some pstr) (normOpt v)
      ⟨st.nextId, c, shop, some pstr, normOpt v⟩ = true := by
    simp [addMatch]
  have hfind2 : findRow (addMatch c shop (some pstr) (normOpt v))
      (st.rows ++ [⟨st.nextId, c, shop, some pstr, normOpt v⟩])
      = some ⟨st.nextId, c, shop, some pstr, normOpt v⟩ := by
    rw [findRow_append_of_none hnodup]
    simp [findRow, hmatch]
  have h2 := wishlistAdd_conflict
    (⟨st.rows ++ [⟨st.nextId, c, shop, some pstr, normOpt v⟩], st.nextId + 1⟩ : Store)
    shop c pstr v hshop hc hp _ hfind2
  rw [h1]
  exact ⟨rfl, rfl, by rw [h2]; rfl, by rw [h2]⟩

/-- C1 (witness): concrete instance of `add_conflict_on_duplicate` with
shop "s1.example", customer "c1", product "P1" and no variant on an empty
store. -/
theorem add_conflict_on_duplicate_witness :
    (wishlistAdd ⟨[], 1⟩ (some "s1.example") (some "c1") (some "P1") none).1.2 = 201
      ∧ (wishlistAdd ⟨[], 1⟩ (some "s1.example") (some "c1") (some "P1") none).2.rows
          = [⟨1, "c1", "s1.example", some "P1", none⟩]
      ∧ (wishlistAdd (wishlistAdd ⟨[], 1⟩ (some "s1.example") (some "c1") (some "P1") none).2
          (some "s1.example") (some "c1") (some "P1") none).1.2 = 409
      ∧ (wishlistAdd (wishlistAdd ⟨[], 1⟩ (some "s1.example") (some "c1") (some "P1") none).2
          (some "s1.example") (some "c1") (some "P1") none).2
          = (wishlistAdd ⟨[], 1⟩ (some "s1.example") (some "c1") (some "P1") none).2 := by
  have h := add_conflict_on_duplicate ⟨[], 1⟩ "s1.example" "c1" "P1" none
    (by decide) (by decide) (by decide) (by intro r hr; simp at hr)
  simpa using h

/-- C2 (counterexample): the declared storage-layer constraint does not
enforce the claimed invariant.  Two rows that agree on all four values,
with `variant_id` NULL in both, satisfy the composite UNIQUE constraint
under SQL NULL semantics while violating null-equals-null uniqueness. -/
theorem storage_unique_counterexample :
    sqlConstraintOK [⟨1, "c", "s", some "P", none⟩, ⟨2, "c", "s", some "P", none⟩]
      ∧ ¬ claimedUnique [⟨1, "c", "s", some "P", none⟩, ⟨2, "c", "s", some "P", none⟩] := by
  constructor
  · decide
  · decide

/-- C2 (amended): the composite UNIQUE constraint declared on the
`Wishlist` table enforces tuple uniqueness only among rows whose nullable
columns are all populated; for rows with a NULL `variant_id` (NULLs
compare distinct in SQL) the invariant rests on the application-level
check-then-insert alone. -/
theorem storage_unique_nonnull_rows (rows : List Row) (h : sqlConstraintOK rows) :
    rows.Pairwise (fun a b =>
      a.product_id.isSome → a.variant_id.isSome → ¬ sameTuple a b) := by
  refine h.imp ?_
  intro a b hab hp hv hst
  obtain ⟨h1, h2, h3, h4⟩ := hst
  obtain ⟨pp, hpp⟩ := Option.isSome_iff_exists.mp hp
  obtain ⟨vv, hvv⟩ := Option.isSome_iff_exists.mp hv
  have : uniqueConflict a b = true := by
    unfold uniqueConflict
    rw [← h3, ← h4, hpp, hvv]
    simp [sqlEq, h1, h2]
  rw [hab] at this
  exact Bool.false_ne_true this

/-- C2 (witness): `storage_unique_nonnull_rows` at a concrete two-row store
whose rows differ only in `variant_id`. -/
theorem storage_unique_nonnull_rows_witness :
    ([⟨1, "c", "s", some "P", some "V1"⟩, ⟨2, "c", "s", some "P", some "V2"⟩] : List Row).Pairwise
      (fun a b => a.product_id.isSome → a.variant_id.isSome → ¬ sameTuple a b) :=
  storage_unique_nonnull_rows
    [⟨1, "c", "s", some "P", some "V1"⟩, ⟨2, "c", "s", some "P", some "V2"⟩] (by decide)

theorem findRow_decomp {α : Type} {p : α → Bool} {l1 l2 : List α} {m : α}
    (hm : p m = true) (h1 : ∀ x ∈ l1, p x = false) :
    findRow p (l1 ++ m :: l2) = some m ∧ deleteRow p (l1 ++ m :: l2) = l1 ++ l2 := by
  constructor
  · rw [findRow_append_of_none h1]; simp [findRow, hm]
  · rw [deleteRow_append_of_none h1]; simp [deleteRow, hm]

/-- C3 (counterexample): the direct `DELETE /wishlist` route does not use
the strict matching rule.  The store holds the single row
(c1, s1, product="P1", variant="V1"); a remove request supplying only
product="P1" (variant absent) should, under the claimed rule, match no row
(absent variant matches only a stored null) and return `NotFoundError`;
the code instead answers 200 and deletes the row. -/
theorem remove_strict_rule_counterexample :
    (wishlistRemoveByBody ⟨[⟨1, "c1", "s1", some "P1", some "V1"⟩], 2⟩
        (some "s1") (some "c1") (some "P1") none).1.2 = 200
      ∧ ((wishlistRemoveByBody ⟨[⟨1, "c1", "s1", some "P1", some "V1"⟩], 2⟩
        (some "s1") (some "c1") (some "P1") none).2).rows = [] :=
  ⟨rfl, rfl⟩

/-- C3 (amended): the proxy remove (`_remove_from_wishlist`) locates the
row with the same strict field-by-field rule as add — an absent product or
variant matches only a stored null — deleting the first match and
returning 404 with no deletion when nothing matches; the direct
`DELETE /wishlist` route (`remove_from_wishlist_by_body`) instead filters
only by the identifiers supplied, so an absent product/variant matches any
stored value, again deleting the first match or returning 404 with no
deletion. -/
theorem remove_matching_semantics (st : Store) (shop c : String) (p v : Option String)
    (hc : ¬c.isEmpty) (hshop : ¬shop.isEmpty) (hid : (truthy p || truthy v) = true) :
    ((∀ r ∈ st.rows, addMatch c shop (normOpt p) (normOpt v) r = false) →
        proxyRemove st shop (some c) p v = (jsonErr "Item not found" 404, st))
      ∧ (∀ l1 m l2, st.rows = l1 ++ m :: l2 →
          addMatch c shop (normOpt p) (normOpt v) m = true →
          (∀ x ∈ l1, addMatch c shop (normOpt p) (normOpt v) x = false) →
          (proxyRemove st shop (some c) p v).1.2 = 200
            ∧ (proxyRemove st shop (some c) p v).2.rows = l1 ++ l2)
      ∧ ((∀ r ∈ st.rows, looseMatch c shop (normOpt p) (normOpt v) r = false) →
          wishlistRemoveByBody st (some shop) (some c) p v = (jsonErr "Item not found" 404, st))
      ∧ (∀ l1 m l2, st.rows = l1 ++ m :: l2 →
          looseMatch c shop (normOpt p) (normOpt v) m = true →
          (∀ x ∈ l1, looseMatch c shop (normOpt p) (normOpt v) x = false) →
          (wishlistRemoveByBody st (some shop) (some c) p v).1.2 = 200
            ∧ (wishlistRemoveByBody st (some shop) (some c) p v).2.rows = l1 ++ l2) := by
  have h1 : truthy (some c) = true := by simp [truthy, hc]
  have h2 : truthy (some shop) = true := by simp [truthy, hshop]
  refine ⟨?_, ?_, ?_, ?_⟩
  · intro hno
    unfold proxyRemove
    simp only [h1, hid, Bool.true_and, Bool.not_true, Bool.false_eq_true, if_false,
      Option.getD_some]
    rw [findRow_eq_none.mpr hno]
  · intro l1 m l2 he hm hl1
    obtain ⟨hf, hd⟩ := findRow_decomp hm hl1
    unfold proxyRemove
    simp only [h1, hid, Bool.true_and, Bool.not_true, Bool.false_eq_true, if_false,
      Option.getD_some]
    rw [he, hf, hd]
    exact ⟨rfl, rfl⟩
  · intro hno
    unfold wishlistRemoveByBody
    simp only [h1, h2, hid, Bool.and_self, Bool.not_true, Bool.false_eq_true, if_false,
      Option.getD_some]
    rw [findRow_eq_none.mpr hno]
  · intro l1 m l2 he hm hl1
    obtain ⟨hf, hd⟩ := findRow_decomp hm hl1
    unfold wishlistRemoveByBody
    simp only [h1, h2, hid, Bool.and_self, Bool.not_true, Bool.false_eq_true, if_false,
      Option.getD_some]
    rw [he, hf, hd]
    exact ⟨rfl, rfl⟩

/-- C3 (witness): `remove_matching_semantics` at a concrete store holding
(c1, s1, "P1", "V1"): the strict proxy remove with only product "P1"
supplied matches nothing, answers 404, and deletes nothing. -/
theorem remove_matching_semantics_witness :
    proxyRemove ⟨[⟨1, "c1", "s1", some "P1", some "V1"⟩], 2⟩ "s1" (some "c1") (some "P1") none
      = (jsonErr "Item not found" 404, ⟨[⟨1, "c1", "s1", some "P1", some "V1"⟩], 2⟩) :=
  (remove_matching_semantics ⟨[⟨1, "c1", "s1", some "P1", some "V1"⟩], 2⟩ "s1" "c1"
    (some "P1") none (by decide) (by decide) (by decide)).1 (by decide)

/-- C10: both remove-by-fields handlers delete at most one row.  Either the
store is left exactly as it was, or the rows decompose as a prefix of
non-matching rows, one matching row (the one deleted), and an untouched
suffix — so rows beyond the first match and all non-matching rows survive
unchanged, even when several rows match the supplied fields. -/
theorem remove_deletes_at_most_one (st : Store) (shop : String) (shopO c p v : Option String) :
    ((proxyRemove st shop c p v).2.rows = st.rows
      ∨ ∃ l1 m l2, st.rows = l1 ++ m :: l2
          ∧ (proxyRemove st shop c p v).2.rows = l1 ++ l2
          ∧ addMatch (c.getD "") shop (normOpt p) (normOpt v) m = true
          ∧ ∀ x ∈ l1, addMatch (c.getD "") shop (normOpt p) (normOpt v) x = false)
    ∧ ((wishlistRemoveByBody st shopO c p v).2.rows = st.rows
      ∨ ∃ l1 m l2, st.rows = l1 ++ m :: l2
          ∧ (wishlistRemoveByBody st shopO c p v).2.rows = l1 ++ l2
          ∧ looseMatch (c.getD "") (shopO.getD "") (normOpt p) (normOpt v) m = true
          ∧ ∀ x ∈ l1, looseMatch (c.getD "") (shopO.getD "") (normOpt p) (normOpt v) x = false) := by
  constructor
  · unfold proxyRemove
    split
    · exact Or.inl rfl
    · dsimp only
      rcases findRow_cases (addMatch (c.getD "") shop (normOpt p) (normOpt v)) st.rows with
        ⟨hf, _, _⟩ | ⟨l1, m, l2, he, hf, hd, hm, hl1⟩
      · rw [hf]
        exact Or.inl rfl
      · rw [hf]
        exact Or.inr ⟨l1, m, l2, he, by simpa using hd, hm, hl1⟩
  · unfold wishlistRemoveByBody
    split
    · exact Or.inl rfl
    · split
      · exact Or.inl rfl
      · dsimp only
        rcases findRow_cases
            (looseMatch (c.getD "") (shopO.getD "") (normOpt p) (normOpt v)) st.rows with
          ⟨hf, _, _⟩ | ⟨l1, m, l2, he, hf, hd, hm, hl1⟩
        · rw [hf]
          exact Or.inl rfl
        · rw [hf]
          exact Or.inr ⟨l1, m, l2, he, by simpa using hd, hm, hl1⟩

/-- C4 (code bug, evaluation at the failing input): a proxy add supplying
only variant "V7" for customer "c2" of shop "s2.example", with no settings
registered (resolver unavailable), does not persist a product-less row.
`product_id` is declared NOT NULL in `src/models/wishlist.py`, so the
INSERT raises `IntegrityError`; the handler rolls back and answers 500
(`db_integrity_failed`), storing nothing — while the route's own duplicate
check and the spec both assume a product-less row is storable. -/
theorem variant_only_add_fails_not_null :
    (proxyAdd ⟨[], 1⟩ "s2.example" (some "c2") none (some "V7") none
        (fun _ => Except.error "down")).1.2 = 500
      ∧ ((proxyAdd ⟨[], 1⟩ "s2.example" (some "c2") none (some "V7") none
        (fun _ => Except.error "down")).2).rows = []
      ∧ (proxyAdd ⟨[], 1⟩ "s2.example" (some "c2") none (some "V7") none
        (fun _ => Except.error "down")).1.1.get "error"
          = some (J.s "db_integrity_failed: product_id may be required in your schema") :=
  ⟨rfl, rfl, rfl⟩

/-- C5 (counterexample): with a registered token but a raising variant
lookup, the resolver does report unavailable (`none`) — yet the enclosing
add does not succeed: it answers 500 because the row it then tries to
insert has a NULL `product_id`. -/
theorem resolver_failure_add_counterexample :
    resolveProductId "s3.example" (some "V9") (some ⟨"s3.example", "tok", none, none⟩)
        (fun _ => Except.error "boom") = none
      ∧ (proxyAdd ⟨[], 1⟩ "s3.example" (some "c3") none (some "V9")
          (some ⟨"s3.example", "tok", none, none⟩) (fun _ => Except.error "boom")).1.2 = 500 :=
  ⟨rfl, rfl⟩

/-- C5 (amended): `_resolve_product_id` never raises past its boundary: it
is a total function reporting unavailable (`none`) when the shop has no
settings row, when the registered token is empty, and on any lookup
failure — a raised exception or a falsy payload.  The enclosing add is not
aborted by the resolver, but when no product was supplied it then fails
with a 500 integrity error (NOT NULL `product_id`) rather than
succeeding. -/
theorem resolver_reports_unavailable (shop : String) (variant : Option String)
    (settings : Option ShopSettings) (lookupVariant : Lookup) :
    resolveProductId shop variant none lookupVariant = none
      ∧ (∀ s0 : ShopSettings, s0.access_token.isEmpty →
          resolveProductId shop variant (some s0) lookupVariant = none)
      ∧ (∀ e, lookupVariant (variant.getD "") = Except.error e →
          resolveProductId shop variant settings lookupVariant = none)
      ∧ (lookupVariant (variant.getD "") = Except.ok none →
          resolveProductId shop variant settings lookupVariant = none)
      ∧ (∀ (st : Store) (c vstr : String), ¬c.isEmpty → ¬vstr.isEmpty →
          (∀ r ∈ st.rows, r.product_id ≠ none) →
          (proxyAdd st shop (some c) none (some vstr) none lookupVariant).1.2 = 500
            ∧ (proxyAdd st shop (some c) none (some vstr) none lookupVariant).2 = st) := by
  refine ⟨?_, ?_, ?_, ?_, ?_⟩
  · unfold resolveProductId
    split <;> rfl
  · intro s0 hs0
    unfold resolveProductId
    split
    · rfl
    · simp [hs0]
  · intro e he
    unfold resolveProductId
    split
    · rfl
    · cases settings with
      | none => rfl
      | some s0 =>
        by_cases ht : s0.access_token.isEmpty
        · simp [ht]
        · simp [ht, he]
  · intro he
    unfold resolveProductId
    split
    · rfl
    · cases settings with
      | none => rfl
      | some s0 =>
        by_cases ht : s0.access_token.isEmpty
        · simp [ht]
        · simp [ht, he]
  · intro st c vstr hc hv hvalid
    have h1 : truthy (some c) = true := by simp [truthy, hc]
    have h3 : truthy (some vstr) = true := by simp [truthy, hv]
    have h4 : normOpt (some vstr) = some vstr := by simp [normOpt, hv]
    have hres : resolveProductId shop (some vstr) none lookupVariant = none := by
      unfold resolveProductId
      split <;> rfl
    have hfind : findRow (addMatch c shop none (some vstr)) st.rows = none := by
      rw [findRow_eq_none]
      intro r hr
      by_contra hx
      rw [Bool.not_eq_false] at hx
      unfold addMatch at hx
      simp only [decide_eq_true_eq] at hx
      exact hvalid r hr hx.2.2.1
    have ht0 : truthy none = false := rfl
    have hn0 : normOpt none = none := rfl
    unfold proxyAdd
    simp only [h1, h3, ht0, hn0, h4, Bool.false_or, Bool.and_self, Bool.true_and,
      Bool.not_true, Bool.false_eq_true, if_false, Option.getD_some, Option.isNone_none,
      Option.isSome_some, Bool.and_self, if_true, hres]
    rw [hfind]
    unfold dbInsert
    simp [jsonErr]

/-- C5 (witness): `resolver_reports_unavailable` at concrete inputs — a
registered token with a raising lookup yields `none`, and a concrete
variant-only proxy add against an unregistered shop answers 500. -/
theorem resolver_reports_unavailable_witness :
    resolveProductId "s5.example" (some "V5") (some ⟨"s5.example", "tok5", none, none⟩)
        (fun _ => Except.error "net") = none
      ∧ (proxyAdd ⟨[], 5⟩ "s5.example" (some "c5") none (some "V5") none
          (fun _ => Except.error "net")).1.2 = 500 :=
  ⟨(resolver_reports_unavailable "s5.example" (some "V5")
      (some ⟨"s5.example", "tok5", none, none⟩) (fun _ => Except.error "net")).2.2.1
        "net" rfl,
   ((resolver_reports_unavailable "s5.example" (some "V5") none
      (fun _ => Except.error "net")).2.2.2.2 ⟨[], 5⟩ "c5" "V5" (by decide) (by decide)
        (by intro r hr; simp at hr)).1⟩

theorem enrichRowMarked_eq_obj (api : Option Lookup) (r : Row) :
    ∃ extra : List (String × J), enrichRowMarked api r = J.obj (rowFields r ++ extra) := by
  unfold enrichRowMarked
  cases api with
  | none => exact ⟨[], by simp⟩
  | some f =>
    cases hp : r.product_id with
    | none => exact ⟨[], by simp⟩
    | some pid =>
      by_cases hpe : pid.isEmpty
      · exact ⟨[], by simp [hpe]⟩
      · cases hf : f pid with
        | error e => exact ⟨[("product_error", J.s e)], by simp [hpe, hf]⟩
        | ok po =>
          cases po with
          | none => exact ⟨[], by simp [hpe, hf]⟩
          | some p =>
            by_cases hpt : p.truthy
            · exact ⟨[("product", p)], by simp [hpe, hf, hpt]⟩
            · exact ⟨[], by simp [hpe, hf, hpt]⟩

theorem get_rowFields_append (r : Row) (extra : List (String × J)) (k : String) (w : J)
    (h : getKV (rowFields r) k = some w) :
    (J.obj (rowFields r ++ extra)).get k = some w := by
  simp only [J.get, getKV_append, h]

/-- C6: enrichment returns exactly as many rows as it was given, in the
original order: the `i`-th output row carries the `i`-th input row's base
fields.  A row whose external product lookup raises is returned without a
`product` field but with a `product_error` marker, while a row whose
lookup succeeds with a truthy payload carries it under `product` — so no
single row's failure drops, reorders, or aborts the rest of the read. -/
theorem enrich_preserves_rows (api : Option Lookup) (items : List Row) :
    (enrichList api items).length = items.length
      ∧ ∀ (i : Nat) (r : Row), items.get? i = some r →
          ∃ o, (enrichList api items).get? i = some o
            ∧ o.get "id" = some (J.n (Int.ofNat r.id))
            ∧ o.get "customer_id" = some (J.s r.customer_id)
            ∧ o.get "shop_domain" = some (J.s r.shop_domain)
            ∧ o.get "product_id" = some (optStr r.product_id)
            ∧ o.get "variant_id" = some (optStr r.variant_id)
            ∧ (∀ (f : Lookup) (pid : String) (e : String), api = some f →
                r.product_id = some pid → pid.isEmpty = false →
                f pid = Except.error e →
                o.get "product" = none ∧ o.get "product_error" = some (J.s e))
            ∧ (∀ (f : Lookup) (pid : String) (p : J), api = some f →
                r.product_id = some pid → pid.isEmpty = false →
                f pid = Except.ok (some p) → p.truthy = true →
                o.get "product" = some p) := by
  constructor
  · simp [enrichList]
  · intro i r hi
    refine ⟨enrichRowMarked api r, ?_, ?_, ?_, ?_, ?_, ?_, ?_, ?_⟩
    · rw [enrichList, List.get?_map, hi]
      rfl
    · obtain ⟨extra, hx⟩ := enrichRowMarked_eq_obj api r
      rw [hx]
      exact get_rowFields_append r extra _ _ (by simp [rowFields, getKV])
    · obtain ⟨extra, hx⟩ := enrichRowMarked_eq_obj api r
      rw [hx]
      exact get_rowFields_append r extra _ _ (by simp [rowFields, getKV])
    · obtain ⟨extra, hx⟩ := enrichRowMarked_eq_obj api r
      rw [hx]
      exact get_rowFields_append r extra _ _ (by simp [rowFields, getKV])
    · obtain ⟨extra, hx⟩ := enrichRowMarked_eq_obj api r
      rw [hx]
      exact get_rowFields_append r extra _ _ (by simp [rowFields, getKV])
    · obtain ⟨extra, hx⟩ := enrichRowMarked_eq_obj api r
      rw [hx]
      exact get_rowFields_append r extra _ _ (by simp [rowFields, getKV])
    · intro f pid e hapi hpid hpe hf
      subst hapi
      simp only [enrichRowMarked, hpid, hpe, hf, Bool.false_eq_true, if_false]
      constructor
      · simp [J.get, getKV_append, rowFields, getKV]
      · simp [J.get, getKV_append, rowFields, getKV]
    · intro f pid p hapi hpid hpe hf hpt
      subst hapi
      simp only [enrichRowMarked, hpid, hpe, hf, hpt, Bool.false_eq_true, if_false, if_true]
      simp [J.get, getKV_append, rowFields, getKV]

/-- C6 (witness): `enrich_preserves_rows` on the spec's two-row scenario —
the first row's lookup raises, the second succeeds: two rows come back,
the first without a `product` field and with an error marker. -/
theorem enrich_preserves_rows_witness :
    (enrichList (some (fun pid => if pid = "P1" then Except.error "lookup failed"
        else Except.ok (some (J.obj [("title", J.s "T")]))))
      [⟨1, "c", "s", some "P1", none⟩, ⟨2, "c", "s", some "P2", none⟩]).length = 2
      ∧ ∃ o, (enrichList (some (fun pid => if pid = "P1" then Except.error "lookup failed"
            else Except.ok (some (J.obj [("title", J.s "T")]))))
          [⟨1, "c", "s", some "P1", none⟩, ⟨2, "c", "s", some "P2", none⟩]).get? 0 = some o
          ∧ o.get "product" = none
          ∧ o.get "product_error" = some (J.s "lookup failed") := by
  refine ⟨(enrich_preserves_rows _ _).1, ?_⟩
  obtain ⟨o, ho, _, _, _, _, _, hfail, _⟩ :=
    (enrich_preserves_rows
      (some (fun pid => if pid = "P1" then Except.error "lookup failed"
        else Except.ok (some (J.obj [("title", J.s "T")]))))
      [⟨1, "c", "s", some "P1", none⟩, ⟨2, "c", "s", some "P2", none⟩]).2 0
      ⟨1, "c", "s", some "P1", none⟩ rfl
  obtain ⟨hnp, hpe⟩ := hfail _ "P1" "lookup failed" rfl rfl rfl rfl
  exact ⟨o, ho, hnp, hpe⟩

theorem deleteSettings_no_match_of_nodup {l : List ShopSettings} {s : String}
    (h : (l.map ShopSettings.shop_domain).Nodup) :
    ∀ x ∈ deleteSettings s l, x.shop_domain ≠ s := by
  induction l with
  | nil =>
    intro x hx
    simp [deleteSettings, deleteRow] at hx
  | cons a as ih =>
    rw [List.map_cons, List.nodup_cons] at h
    obtain ⟨hnotin, hnd⟩ := h
    intro x hx
    by_cases ha : a.shop_domain = s
    · have hx' : x ∈ as := by
        simpa [deleteSettings, deleteRow, ha] using hx
      intro hxs
      exact hnotin (by rw [ha, ← hxs]; exact List.mem_map_of_mem _ hx')
    · have hx' : x = a ∨ x ∈ deleteSettings s as := by
        simpa [deleteSettings, deleteRow, ha] using hx
      rcases hx' with rfl | hx'
      · exact ha
      · exact ih hnd x hx'

/-- C7: for every state and truthy shop argument, uninstall answers 200
with `success: true`, removes every wishlist row whose (normalised) shop
domain matches while keeping every other row, removes the shop's settings
row (under the registry's unique-domain invariant none remains), and is a
no-op on the state when the shop was never installed and owns no rows. -/
theorem uninstall_cascades (st : AppState) (shopArg : String) (hs : ¬shopArg.isEmpty) :
    (uninstall st (some shopArg)).1.2 = 200
      ∧ (uninstall st (some shopArg)).1.1.get "success" = some (J.b true)
      ∧ (∀ r ∈ (uninstall st (some shopArg)).2.wishlist.rows,
          r.shop_domain ≠ normalizeShop shopArg)
      ∧ (∀ r ∈ st.wishlist.rows, r.shop_domain ≠ normalizeShop shopArg →
          r ∈ (uninstall st (some shopArg)).2.wishlist.rows)
      ∧ (∀ r ∈ (uninstall st (some shopArg)).2.wishlist.rows, r ∈ st.wishlist.rows)
      ∧ ((st.settings.map ShopSettings.shop_domain).Nodup →
          ∀ x ∈ (uninstall st (some shopArg)).2.settings,
            x.shop_domain ≠ normalizeShop shopArg)
      ∧ ((∀ x ∈ st.settings, x.shop_domain ≠ normalizeShop shopArg) →
          (∀ r ∈ st.wishlist.rows, r.shop_domain ≠ normalizeShop shopArg) →
          (uninstall st (some shopArg)).2 = st) := by
  obtain ⟨setts, rows, nid⟩ := st
  have h1 : truthy (some shopArg) = true := by simp [truthy, hs]
  unfold uninstall
  simp only [h1, Bool.not_true, Bool.false_eq_true, if_false, Option.getD_some]
  refine ⟨by trivial, by simp [J.get, getKV], ?_, ?_, ?_, ?_, ?_⟩
  · intro r hr
    have := (List.mem_filter.mp hr).2
    simpa using this
  · intro r hr hne
    exact List.mem_filter.mpr ⟨hr, by simpa using hne⟩
  · intro r hr
    exact (List.mem_filter.mp hr).1
  · intro hnd x hx
    exact deleteSettings_no_match_of_nodup hnd x hx
  · intro hsett hrows
    have he1 : deleteSettings (normalizeShop shopArg) setts = setts := by
      unfold deleteSettings
      exact deleteRow_eq_of_none (fun x hx => by simpa using hsett x hx)
    have he2 : rows.filter (fun r => !decide (r.shop_domain = normalizeShop shopArg)) = rows :=
      List.filter_eq_self.mpr (fun r hr => by simpa using hrows r hr)
    simp [he1, he2]

/-- C7 (witness): `uninstall_cascades` at a concrete installed shop with
one matching and one foreign wishlist row. -/
theorem uninstall_cascades_witness :
    (uninstall ⟨[⟨"s9.myshopify.com", "tok9", none, none⟩],
        ⟨[⟨1, "c", "s9.myshopify.com", some "P", none⟩,
          ⟨2, "c", "other.myshopify.com", some "Q", none⟩], 3⟩⟩
      (some "s9.myshopify.com")).1.2 = 200
      ∧ (∀ r ∈ (uninstall ⟨[⟨"s9.myshopify.com", "tok9", none, none⟩],
          ⟨[⟨1, "c", "s9.myshopify.com", some "P", none⟩,
            ⟨2, "c", "other.myshopify.com", some "Q", none⟩], 3⟩⟩
        (some "s9.myshopify.com")).2.wishlist.rows,
          r.shop_domain ≠ normalizeShop "s9.myshopify.com")
      ∧ (∀ x ∈ (uninstall ⟨[⟨"s9.myshopify.com", "tok9", none, none⟩],
          ⟨[⟨1, "c", "s9.myshopify.com", some "P", none⟩,
            ⟨2, "c", "other.myshopify.com", some "Q", none⟩], 3⟩⟩
        (some "s9.myshopify.com")).2.settings,
          x.shop_domain ≠ normalizeShop "s9.myshopify.com") := by
  have h := uninstall_cascades ⟨[⟨"s9.myshopify.com", "tok9", none, none⟩],
      ⟨[⟨1, "c", "s9.myshopify.com", some "P", none⟩,
        ⟨2, "c", "other.myshopify.com", some "Q", none⟩], 3⟩⟩
    "s9.myshopify.com" (by decide)
  exact ⟨h.1, h.2.2.1, h.2.2.2.2.2.1 (by decide)⟩

/-- C8: for every (shop, customer), clear answers 200 with `success: true`
and a message reporting exactly the number of rows deleted; the surviving
rows are precisely the stored rows not owned by that (shop, customer); on
an empty store the count reported is 0 and nothing errors. -/
theorem clear_deletes_owned_rows (st : Store) (shop c : String)
    (hshop : ¬shop.isEmpty) (hc : ¬c.isEmpty) :
    (clearWishlist st (some shop) (some c)).1.2 = 200
      ∧ (clearWishlist st (some shop) (some c)).1.1.get "success" = some (J.b true)
      ∧ (clearWishlist st (some shop) (some c)).1.1.get "message"
          = some (J.s ("Cleared " ++ toString (st.rows.countP (ownerMatch c shop))
              ++ " items from wishlist"))
      ∧ (∀ r ∈ (clearWishlist st (some shop) (some c)).2.rows,
          r ∈ st.rows ∧ ¬(r.customer_id = c ∧ r.shop_domain = shop))
      ∧ (∀ r ∈ st.rows, ¬(r.customer_id = c ∧ r.shop_domain = shop) →
          r ∈ (clearWishlist st (some shop) (some c)).2.rows)
      ∧ (st.rows = [] →
          (clearWishlist st (some shop) (some c)).1.1.get "message"
            = some (J.s "Cleared 0 items from wishlist")
            ∧ (clearWishlist st (some shop) (some c)).2.rows = []) := by
  obtain ⟨rows, nid⟩ := st
  have h1 : truthy (some c) = true := by simp [truthy, hc]
  have h2 : truthy (some shop) = true := by simp [truthy, hshop]
  unfold clearWishlist
  simp only [h1, h2, Bool.and_self, Bool.not_true, Bool.false_eq_true, if_false,
    Option.getD_some]
  refine ⟨by trivial, by simp [jsonOk, setdefaultKV, J.get, getKV],
    by simp [jsonOk, setdefaultKV, J.get, getKV], ?_, ?_, ?_⟩
  · intro r hr
    have hm := List.mem_filter.mp hr
    refine ⟨hm.1, ?_⟩
    have := hm.2
    simp only [Bool.not_eq_true'] at this
    simpa [ownerMatch] using this
  · intro r hr hne
    refine List.mem_filter.mpr ⟨hr, ?_⟩
    simp only [Bool.not_eq_true']
    simpa [ownerMatch] using hne
  · intro he
    subst he
    constructor
    · simp only [List.countP_nil, jsonOk, setdefaultKV, J.get, getKV]
      rfl
    · simp

/-- C8 (witness): `clear_deletes_owned_rows` on an empty store: clearing
reports 0 deletions with status 200. -/
theorem clear_deletes_owned_rows_witness :
    (clearWishlist ⟨[], 7⟩ (some "s1.example") (some "c1")).1.2 = 200
      ∧ (clearWishlist ⟨[], 7⟩ (some "s1.example") (some "c1")).1.1.get "message"
          = some (J.s "Cleared 0 items from wishlist")
      ∧ (clearWishlist ⟨[], 7⟩ (some "s1.example") (some "c1")).2.rows = [] := by
  have h := clear_deletes_owned_rows ⟨[], 7⟩ "s1.example" "c1" (by decide) (by decide)
  exact ⟨h.1, (h.2.2.2.2.2 rfl).1, (h.2.2.2.2.2 rfl).2⟩

/-- C9 (counterexample): not every HTTP response of the service carries a
boolean `success` field.  `GET /auth/verify` builds its payload with bare
`jsonify({'installed': ..., 'shop': ...})`, so the claim fails at the
concrete request shop="shop1.myshopify.com" on an empty state. -/
theorem response_success_field_counterexample :
    (verifyInstallation ⟨[], ⟨[], 1⟩⟩ (some "shop1.myshopify.com")).1.get "success" = none :=
  rfl

/-- C9 (amended): every response of the wishlist and proxy CRUD handlers is
JSON with a boolean `success` field, and their error responses carry an
`error` message with one of the documented statuses (400, 404, 409, 500);
the auth routes, however, build payloads with bare `jsonify` — in
particular `/auth/verify` answers without any `success` field. -/
theorem responses_success_and_error_fields (st : Store) (stA : AppState) (shop : String)
    (shopO c p v : Option String) (settings : Option ShopSettings) (lv : Lookup)
    (api : Option Lookup) :
    goodResponse (wishlistAdd st shopO c p v).1
      ∧ goodResponse (proxyAdd st shop c p v settings lv).1
      ∧ goodResponse (wishlistRemoveByBody st shopO c p v).1
      ∧ goodResponse (proxyRemove st shop c p v).1
      ∧ goodResponse (clearWishlist st shopO c).1
      ∧ goodResponse (wishlistCount st shopO c)
      ∧ goodResponse (getWishlist st shopO c api)
      ∧ (truthy shopO = true → (verifyInstallation stA shopO).1.get "success" = none) := by
  refine ⟨?_, ?_, ?_, ?_, ?_, ?_, ?_, ?_⟩
  · unfold wishlistAdd
    split
    · exact goodResponse_jsonErr _ _ (Or.inl rfl)
    · split
      · exact goodResponse_jsonErr _ _ (Or.inl rfl)
      · dsimp only
        split
        · exact goodResponse_jsonErr _ _ (Or.inr (Or.inr (Or.inl rfl)))
        · split
          · exact goodResponse_jsonOk _ _ (by omega) (by simp [getKV])
          · exact goodResponse_jsonErr _ _ (Or.inr (Or.inr (Or.inr rfl)))
  · unfold proxyAdd
    split
    · exact goodResponse_jsonErr _ _ (Or.inl rfl)
    · dsimp only
      split
      · exact goodResponse_jsonErr _ _ (Or.inr (Or.inr (Or.inl rfl)))
      · split
        · exact goodResponse_jsonOk _ _ (by omega) (by simp [getKV])
        · exact goodResponse_jsonErr _ _ (Or.inr (Or.inr (Or.inr rfl)))
  · unfold wishlistRemoveByBody
    split
    · exact goodResponse_jsonErr _ _ (Or.inl rfl)
    · split
      · exact goodResponse_jsonErr _ _ (Or.inl rfl)
      · dsimp only
        split
        · exact goodResponse_jsonErr _ _ (Or.inr (Or.inl rfl))
        · exact goodResponse_jsonOk _ _ (by omega) (by simp [getKV])
  · unfold proxyRemove
    split
    · exact goodResponse_jsonErr _ _ (Or.inl rfl)
    · dsimp only
      split
      · exact goodResponse_jsonErr _ _ (Or.inr (Or.inl rfl))
      · exact goodResponse_jsonOk _ _ (by omega) (by simp [getKV])
  · unfold clearWishlist
    split
    · exact goodResponse_jsonErr _ _ (Or.inl rfl)
    · exact goodResponse_jsonOk _ _ (by omega) (by simp [getKV])
  · unfold wishlistCount
    split
    · exact goodResponse_jsonErr _ _ (Or.inl rfl)
    · exact goodResponse_jsonOk _ _ (by omega) (by simp [getKV])
  · unfold getWishlist
    split
    · exact goodResponse_jsonErr _ _ (Or.inl rfl)
    · exact goodResponse_jsonOk _ _ (by omega) (by simp [getKV])
  · intro h
    unfold verifyInstallation
    simp only [h, Bool.not_true, Bool.false_eq_true, if_false]
    simp [J.get, getKV]

/-- C9 (witness): `responses_success_and_error_fields` at concrete inputs:
a concrete add response satisfies the response discipline, and a concrete
`/auth/verify` call on an installed shop carries no `success` field. -/
theorem responses_success_and_error_fields_witness :
    goodResponse (wishlistAdd ⟨[], 1⟩ (some "s6.example") (some "c6") (some "P6") none).1
      ∧ (verifyInstallation ⟨[⟨"w.myshopify.com", "t", none, none⟩], ⟨[], 4⟩⟩
          (some "w.myshopify.com")).1.get "success" = none := by
  have h := responses_success_and_error_fields ⟨[], 1⟩
    ⟨[⟨"w.myshopify.com", "t", none, none⟩], ⟨[], 4⟩⟩ "unused"
    (some "s6.example") (some "c6") (some "P6") none none (fun _ => Except.ok none) none
  have h2 := responses_success_and_error_fields ⟨[], 1⟩
    ⟨[⟨"w.myshopify.com", "t", none, none⟩], ⟨[], 4⟩⟩ "unused"
    (some "w.myshopify.com") (some "c6") (some "P6") none none (fun _ => Except.ok none) none
  exact ⟨h.1, h2.2.2.2.2.2.2.2 (by decide)⟩
